import Mathlib

/-!
Verification of the workergram update-dispatch engine.

This file gives a shallow embedding of the filter algebra (src/filters.ts)
and of the dispatcher (src/bot.ts: onUpdate, onCommand, createContext,
processUpdate) of the workergram repository, and proves properties of it.

Modelling conventions:
* Optional / nullable JavaScript fields become `Option`.
* A JavaScript function value carrying the optional `compatibleEvents`
  property (the `FilterFunction` type of src/types.ts) becomes a structure
  pairing the predicate with `Option (List UpdateKind)`.
* A predicate or handler that can throw returns `Except String`.
* Handlers are modelled by the observable trace they produce: a handler
  emits a list of event labels (`Nat`) and then either returns normally or
  throws.  `await handler(ctx)` is sequential composition of traces, which
  is exactly what the `await` in the dispatcher loop guarantees.
* A JavaScript `RegExp` value is modelled by its `test` function, except
  for the one concrete regex built by `filters.command`, which is
  translated explicitly.
-/

set_option autoImplicit false

namespace Workergram

/-- Update kinds handled by the dispatcher (the top-level Update fields the
repository inspects).  `update_id` is not a kind. -/
inductive UpdateKind where
  | message
  | edited_message
  | callback_query
  | chat_member
  | my_chat_member
  | inline_query
  | chosen_inline_result
  deriving DecidableEq, Repr

/-- Chat types, as in the `chatType` filter of src/filters.ts. -/
inductive ChatType where
  | private_chat
  | group
  | supergroup
  | channel
  deriving DecidableEq, Repr

/-- Chat member statuses, as compared by `memberStatusChange`. -/
inductive ChatMemberStatus where
  | creator
  | administrator
  | member
  | restricted
  | left
  | kicked
  deriving DecidableEq, Repr

/-- A Telegram user; only the id is inspected by the code under proof. -/
structure User where
  id : Int
  deriving DecidableEq, Repr

/-- A Telegram chat; the filters inspect `id` and `type`. -/
structure Chat where
  id : Int
  type : ChatType
  deriving DecidableEq, Repr

/-- A Telegram message, restricted to the fields the filters inspect:
`text`, `chat`, `from`, `new_chat_members`, `left_chat_member`. -/
structure Msg where
  text : Option String
  chat : Chat
  fromUser : Option User
  new_chat_members : Option (List User)
  left_chat_member : Option User
  deriving DecidableEq, Repr

/-- A callback query: `data`, optional `message`, mandatory `from`. -/
structure CallbackQuery where
  data : Option String
  message : Option Msg
  fromUser : User
  deriving DecidableEq, Repr

/-- One side of a chat member transition (`old_chat_member` or
`new_chat_member`): the code reads `.status`. -/
structure ChatMemberInfo where
  status : ChatMemberStatus
  user : User
  deriving DecidableEq, Repr

/-- A `chat_member` / `my_chat_member` payload. -/
structure ChatMemberUpdated where
  chat : Chat
  fromUser : User
  old_chat_member : ChatMemberInfo
  new_chat_member : ChatMemberInfo
  deriving DecidableEq, Repr

/-- An inline query payload; only its presence matters to the dispatcher. -/
structure InlineQuery where
  id : String
  deriving DecidableEq, Repr

/-- A chosen inline result payload; only its presence matters. -/
structure ChosenInlineResult where
  result_id : String
  deriving DecidableEq, Repr

/-- The inbound Update envelope, restricted to the top-level fields the
repository inspects.  Each optional field models a possibly-absent
JavaScript property. -/
structure Update where
  update_id : Int
  message : Option Msg := none
  edited_message : Option Msg := none
  callback_query : Option CallbackQuery := none
  chat_member : Option ChatMemberUpdated := none
  my_chat_member : Option ChatMemberUpdated := none
  inline_query : Option InlineQuery := none
  chosen_inline_result : Option ChosenInlineResult := none
  deriving DecidableEq, Repr

/-- A JavaScript RegExp value, modelled by its `test` method. -/
structure RegExp where
  test : String → Bool

/-- The `FilterFunction` type of src/types.ts: a predicate over updates
(which, being arbitrary user code when built via `custom`, may throw)
together with the optional `compatibleEvents` property hung off the
function object. -/
structure FilterFunction where
  pred : Update → Except String Bool
  compatibleEvents : Option (List UpdateKind) := none

/-- Character class `\w` of the JavaScript regex engine (ASCII word
characters). -/
def isWordChar (c : Char) : Bool :=
  (c ≥ 'a' && c ≤ 'z') || (c ≥ 'A' && c ≤ 'Z') || (c ≥ '0' && c ≤ '9') || c = '_'

/-- Character class `\s` of the JavaScript regex engine, exactly: the
ECMAScript WhiteSpace and LineTerminator code points — tab, LF, vertical
tab, form feed, CR, space, no-break space, Ogham space mark, the
U+2000..U+200A typographic spaces, line separator, paragraph separator,
narrow no-break space, medium mathematical space, ideographic space, and
the zero-width no-break space. -/
def isSpaceChar (c : Char) : Bool :=
  c = '\t' || c = '\n' || c = '\u000B' || c = '\u000C' || c = '\r' ||
    c = ' ' || c = '\u00A0' || c = '\u1680' ||
    c = '\u2000' || c = '\u2001' || c = '\u2002' || c = '\u2003' ||
    c = '\u2004' || c = '\u2005' || c = '\u2006' || c = '\u2007' ||
    c = '\u2008' || c = '\u2009' || c = '\u200A' ||
    c = '\u2028' || c = '\u2029' || c = '\u202F' || c = '\u205F' ||
    c = '\u3000' || c = '\uFEFF'

/-- Removes the exact character sequence `p` from the front of `t`,
returning the remainder, or `none` when `t` does not start with `p`. -/
def dropExact : List Char → List Char → Option (List Char)
  | [], rest => some rest
  | _ :: _, [] => none
  | p :: ps, c :: cs => if c = p then dropExact ps cs else none

/-- The `(?:\s|$)` tail of the command regex: end of input or a whitespace
character next. -/
def spaceOrEnd : List Char → Bool
  | [] => true
  | c :: _ => isSpaceChar c

/-- The `(?:@\w+)?(?:\s|$)` part of the command regex, after the command
name has been consumed.  The greedy `\w+` is implemented by maximal munch,
which is equivalent to the backtracking semantics because a word character
is neither whitespace nor end of input. -/
def commandTail (rest : List Char) : Bool :=
  match rest with
  | [] => true
  | c :: cs =>
    if isSpaceChar c then true
    else if c = '@' then
      decide ((cs.takeWhile isWordChar).length ≥ 1) && spaceOrEnd (cs.dropWhile isWordChar)
    else false

/-- Matching of the regex `^\/command(?:@\w+)?(?:\s|$)` built in
`filters.command`, on explicit character lists, with the command name
matched literally.  This coincides with the source's dynamically built
regex exactly when the name satisfies `regexLiteralName`; the `\s` class
is the exact ECMAScript set (`isSpaceChar`). -/
def commandMatchChars (cmd text : List Char) : Bool :=
  match dropExact ('/' :: cmd) text with
  | none => false
  | some rest => commandTail rest

/-- String-level wrapper for `commandMatchChars`.  Faithful to the
source's spliced regex on `regexLiteralName` names only. -/
def commandRegexMatch (cmd text : String) : Bool :=
  commandMatchChars cmd.data text.data

/-- Parameter of the `memberStatusChange` filter. -/
inductive StatusChange where
  | join
  | leave
  | promote
  | demote
  deriving DecidableEq, Repr

/-- Chat resolution chain shared by `chatType` and `chatId`:
message, then callback_query.message, then chat_member, then
my_chat_member. -/
def resolveChat (u : Update) : Option Chat :=
  match u.message with
  | some m => some m.chat
  | none =>
    match (match u.callback_query with
           | some cq => cq.message
           | none => none) with
    | some m => some m.chat
    | none =>
      match u.chat_member with
      | some cm => some cm.chat
      | none =>
        match u.my_chat_member with
        | some mm => some mm.chat
        | none => none

namespace filters

/-- Filter for exact text messages (src/filters.ts `text`). -/
def text (s : String) : FilterFunction :=
  { pred := fun u => .ok (match u.message with
      | some m => match m.text with
        | some t => decide (t = s)
        | none => false
      | none => false) }

/-- Filter for text messages matching a regex (src/filters.ts
`textMatches`). -/
def textMatches (regex : RegExp) : FilterFunction :=
  { pred := fun u => .ok (match u.message with
      | some m => match m.text with
        | some t => regex.test t
        | none => false
      | none => false) }

/-- Filter for commands (src/filters.ts `command`): the message text is
matched against `new RegExp` of `^\/` ++ name ++ `(?:@\w+)?(?:\s|$)`,
with the name spliced into the pattern unescaped.  The embedding matches
the name literally, which is the source's behaviour exactly for names
satisfying `regexLiteralName`; such names always build a valid regex, so
the closure never throws, matching the total `.ok` result here.  Names
containing regex metacharacters (a different match, or a per-evaluation
throw when the pattern is invalid) are outside this embedding. -/
def command (cmd : String) : FilterFunction :=
  { pred := fun u => .ok (match u.message with
      | some m => match m.text with
        | some t => commandRegexMatch cmd t
        | none => false
      | none => false) }

/-- Filter for callback query data (src/filters.ts `callbackData`). -/
def callbackData (s : String) : FilterFunction :=
  { pred := fun u => .ok (match u.callback_query with
      | some cq => match cq.data with
        | some d => decide (d = s)
        | none => false
      | none => false) }

/-- Filter for callback query data matching a regex (src/filters.ts
`callbackDataMatches`). -/
def callbackDataMatches (regex : RegExp) : FilterFunction :=
  { pred := fun u => .ok (match u.callback_query with
      | some cq => match cq.data with
        | some d => regex.test d
        | none => false
      | none => false) }

/-- Filter for chat type (src/filters.ts `chatType`). -/
def chatType (t : ChatType) : FilterFunction :=
  { pred := fun u => .ok (match resolveChat u with
      | some c => decide (c.type = t)
      | none => false) }

/-- Filter for updates with new chat members (src/filters.ts
`newChatMembers`): a message whose `new_chat_members` array is non-empty. -/
def newChatMembers : FilterFunction :=
  { pred := fun u => .ok (match u.message with
      | some m => match m.new_chat_members with
        | some l => decide (l.length > 0)
        | none => false
      | none => false) }

/-- Filter for updates with a left chat member (src/filters.ts
`leftChatMember`): a message whose `left_chat_member` field is present. -/
def leftChatMember : FilterFunction :=
  { pred := fun u => .ok (match u.message with
      | some m => m.left_chat_member.isSome
      | none => false) }

/-- Transition table of `memberStatusChange` (src/filters.ts lines
168-195). -/
def statusChangeMatches (sc : StatusChange)
    (oldStatus newStatus : ChatMemberStatus) : Bool :=
  match sc with
  | .join =>
    (oldStatus = .left || oldStatus = .kicked) &&
      (newStatus = .member || newStatus = .administrator || newStatus = .restricted)
  | .leave =>
    (oldStatus = .member || oldStatus = .administrator || oldStatus = .restricted) &&
      (newStatus = .left || newStatus = .kicked)
  | .promote =>
    (oldStatus = .member || oldStatus = .restricted) && newStatus = .administrator
  | .demote =>
    oldStatus = .administrator && (newStatus = .member || newStatus = .restricted)

/-- Filter for chat member status changes (src/filters.ts
`memberStatusChange`): reads `chat_member || my_chat_member` and applies
the transition table to the old/new status pair. -/
def memberStatusChange (sc : StatusChange) : FilterFunction :=
  { pred := fun u => .ok (match (match u.chat_member with
      | some cm => some cm
      | none => u.my_chat_member) with
      | some cm =>
        statusChangeMatches sc cm.old_chat_member.status cm.new_chat_member.status
      | none => false) }

/-- Custom filter (src/filters.ts `custom`): wraps an arbitrary predicate
unchanged. -/
def custom (filterFn : Update → Except String Bool) : FilterFunction :=
  { pred := filterFn }

/-- Sequential `Array.every` with exception propagation, as performed by
the closure `and` returns. -/
def andPred : List FilterFunction → Update → Except String Bool
  | [], _ => .ok true
  | f :: fs, u =>
    match f.pred u with
    | .error e => .error e
    | .ok false => .ok false
    | .ok true => andPred fs u

/-- Combine multiple filters with AND logic (src/filters.ts `and`).
The returned closure carries no `compatibleEvents` property. -/
def and (fs : List FilterFunction) : FilterFunction :=
  { pred := andPred fs }

/-- Sequential `Array.some` with exception propagation, as performed by
the closure `or` returns. -/
def orPred : List FilterFunction → Update → Except String Bool
  | [], _ => .ok false
  | f :: fs, u =>
    match f.pred u with
    | .error e => .error e
    | .ok true => .ok true
    | .ok false => orPred fs u

/-- Combine multiple filters with OR logic (src/filters.ts `or`). -/
def or (fs : List FilterFunction) : FilterFunction :=
  { pred := orPred fs }

/-- Negate a filter (src/filters.ts `not`). -/
def not (f : FilterFunction) : FilterFunction :=
  { pred := fun u =>
      match f.pred u with
      | .error e => .error e
      | .ok b => .ok !b }

/-- Filter for a specific chat id (src/filters.ts `chatId`). -/
def chatId (id : Int) : FilterFunction :=
  { pred := fun u => .ok (match resolveChat u with
      | some c => decide (c.id = id)
      | none => false) }

/-- Filter for a specific user id (src/filters.ts `userId`): resolves the
user from message.from, callback_query.from, chat_member.from or
my_chat_member.from; a resolved-but-absent user compares unequal. -/
def userId (id : Int) : FilterFunction :=
  { pred := fun u => .ok (match u.message with
      | some m => match m.fromUser with
        | some us => decide (us.id = id)
        | none => false
      | none =>
        match u.callback_query with
        | some cq => decide (cq.fromUser.id = id)
        | none =>
          match u.chat_member with
          | some cm => decide (cm.fromUser.id = id)
          | none =>
            match u.my_chat_member with
            | some mm => decide (mm.fromUser.id = id)
            | none => false) }

end filters

/-- Context objects (src/bot.ts `createContext`): a tagged variant per
context class, each closing over the update.  Handlers receive one of
these. -/
inductive Ctx where
  | messageCtx (u : Update)
  | chatMemberCtx (u : Update)
  | callbackCtx (u : Update)
  | inlineQueryCtx (u : Update)
  | chosenInlineResultCtx (u : Update)
  | generic (u : Update)
  deriving DecidableEq, Repr

/-- Observable items of one `processUpdate` call, in order:
`invoked c` marks a handler invocation receiving context `c`,
`ev n` is an event label emitted by a running handler, and
`log kind err` is the `console.error` emitted by the per-handler catch
block (which logs the offending update kind and the error). -/
inductive TraceItem where
  | invoked (c : Ctx)
  | ev (n : Nat)
  | log (kind : UpdateKind) (err : String)
  deriving DecidableEq, Repr

/-- A handler, modelled by its observable behaviour on a context: the
event labels it emits, and `some err` when it ends by throwing. -/
def Handler : Type := Ctx → List Nat × Option String

/-- One entry of the per-kind handler list: the handler together with its
optional filter. -/
structure HandlerEntry where
  handler : Handler
  filter : Option FilterFunction := none

/-- The `handlers` map of the Bot class, with JavaScript `Map` semantics
(insertion-ordered association list; `set` on an existing key keeps its
position). -/
def Registry : Type := List (UpdateKind × List HandlerEntry)

/-- The empty registry a fresh Bot starts with. -/
def emptyRegistry : Registry := []

/-- `Map.get`: the value of the first (only) entry for the key. -/
def mapGet (m : Registry) (k : UpdateKind) : Option (List HandlerEntry) :=
  match m with
  | [] => none
  | (k2, v) :: rest => if k2 = k then some v else mapGet rest k

/-- `Map.set`: replaces the value at the key, keeping its position, or
appends a new entry. -/
def mapSet (m : Registry) (k : UpdateKind) (v : List HandlerEntry) : Registry :=
  match m with
  | [] => [(k, v)]
  | (k2, v2) :: rest => if k2 = k then (k2, v) :: rest else (k2, v2) :: mapSet rest k v

namespace Bot

/-- The mutation path of `onUpdate` (src/bot.ts lines 89-96): ensure the
kind has a list, then push the entry onto it. -/
def pushEntry (reg : Registry) (event : UpdateKind) (e : HandlerEntry) : Registry :=
  let reg1 := if (mapGet reg event).isSome then reg else mapSet reg event []
  mapSet reg1 event ((mapGet reg1 event).getD [] ++ [e])

/-- `Bot.onUpdate` (src/bot.ts lines 84-97): registration of a handler.
Throws (here: `.error`) when the filter carries a `compatibleEvents` list
that does not include the event; the throw happens before any mutation.
Note a present-but-empty `compatibleEvents` array is truthy in JavaScript,
so it also rejects every event, which the `some evs` branch reproduces. -/
def onUpdate (reg : Registry) (event : UpdateKind) (handler : Handler)
    (filter : Option FilterFunction) : Except String Registry :=
  match filter with
  | some f =>
    match f.compatibleEvents with
    | some evs =>
      if event ∈ evs then .ok (pushEntry reg event ⟨handler, some f⟩)
      else .error "Filter is not compatible with event"
    | none => .ok (pushEntry reg event ⟨handler, some f⟩)
  | none => .ok (pushEntry reg event ⟨handler, none⟩)

/-- The combined filter `onCommand` builds when an extra filter is given
(src/bot.ts lines 112-117): command filter AND extra filter, tagged with
`compatibleEvents = ["message"]`. -/
def commandCombinedFilter (cmd : String) (f : FilterFunction) : FilterFunction :=
  { pred := fun u =>
      match (filters.command cmd).pred u with
      | .error e => .error e
      | .ok false => .ok false
      | .ok true => f.pred u
    compatibleEvents := some [.message] }

/-- `Bot.onCommand` (src/bot.ts lines 106-124): sugar registering a
message handler guarded by the command filter, AND-combined with the
extra filter when one is supplied. -/
def onCommand (reg : Registry) (cmd : String) (handler : Handler)
    (filter : Option FilterFunction) : Except String Registry :=
  match filter with
  | some f => onUpdate reg .message handler (some (commandCombinedFilter cmd f))
  | none => onUpdate reg .message handler (some (filters.command cmd))

/-- `Bot.createContext` (src/bot.ts lines 131-146): selects the context
class by priority over the populated field — message, then chat_member,
then callback_query, then inline_query, then chosen_inline_result,
otherwise the minimal generic context. -/
def createContext (u : Update) : Ctx :=
  if u.message.isSome then .messageCtx u
  else if u.chat_member.isSome then .chatMemberCtx u
  else if u.callback_query.isSome then .callbackCtx u
  else if u.inline_query.isSome then .inlineQueryCtx u
  else if u.chosen_inline_result.isSome then .chosenInlineResultCtx u
  else .generic u

/-- The kind list `processUpdate` computes (src/bot.ts line 154):
all populated top-level fields other than `update_id`, in field order. -/
def updateTypes (u : Update) : List UpdateKind :=
  (if u.message.isSome then [UpdateKind.message] else []) ++
  (if u.edited_message.isSome then [UpdateKind.edited_message] else []) ++
  (if u.callback_query.isSome then [UpdateKind.callback_query] else []) ++
  (if u.chat_member.isSome then [UpdateKind.chat_member] else []) ++
  (if u.my_chat_member.isSome then [UpdateKind.my_chat_member] else []) ++
  (if u.inline_query.isSome then [UpdateKind.inline_query] else []) ++
  (if u.chosen_inline_result.isSome then [UpdateKind.chosen_inline_result] else [])

/-- Trace of `await handler(ctx)`: the invocation marker, the events the
handler emits, and — when the handler throws — the log line produced by
the surrounding catch block. -/
def runHandler (ctx : Ctx) (kind : UpdateKind) (h : Handler) : List TraceItem :=
  match h ctx with
  | (evs, some err) => .invoked ctx :: evs.map .ev ++ [.log kind err]
  | (evs, none) => .invoked ctx :: evs.map .ev

/-- One iteration of the inner loop of `processUpdate` (src/bot.ts lines
164-217): evaluate the filter inside the try block — a throwing filter is
caught and logged, and the handler skipped; a false filter skips silently;
otherwise run the handler.  (The RegExp / string / object filter branches
of the source are unreachable for the typed `FilterFunction` registry and
are not modelled.) -/
def runEntry (ctx : Ctx) (u : Update) (kind : UpdateKind) (e : HandlerEntry) :
    List TraceItem :=
  match e.filter with
  | some f =>
    match f.pred u with
    | .error err => [.log kind err]
    | .ok false => []
    | .ok true => runHandler ctx kind e.handler
  | none => runHandler ctx kind e.handler

/-- The inner loop of `processUpdate` over one kind's handler list. -/
def runHandlers (ctx : Ctx) (u : Update) (kind : UpdateKind)
    (es : List HandlerEntry) : List TraceItem :=
  (es.map (runEntry ctx u kind)).flatten

/-- `Bot.processUpdate` (src/bot.ts lines 152-220): compute the populated
kinds, build the context once, then run every kind's handler list in
order.  Every handler error is caught inside the loop, so the function is
total: the returned trace is the full observable behaviour and the
promise always resolves. -/
def processUpdate (reg : Registry) (u : Update) : List TraceItem :=
  let ctx := createContext u
  ((updateTypes u).map (fun k => runHandlers ctx u k ((mapGet reg k).getD []))).flatten

end Bot

/-- Whether an update populates the top-level field of a given kind: the
spec's notion of the kinds "present" in an update. -/
def kindPopulated (u : Update) : UpdateKind → Bool
  | .message => u.message.isSome
  | .edited_message => u.edited_message.isSome
  | .callback_query => u.callback_query.isSome
  | .chat_member => u.chat_member.isSome
  | .my_chat_member => u.my_chat_member.isSome
  | .inline_query => u.inline_query.isSome
  | .chosen_inline_result => u.chosen_inline_result.isSome

section SampleData

/-- A sample private chat used by concrete witnesses. -/
def sampleChat : Chat := { id := 42, type := .private_chat }

/-- A message update with the given text, used by concrete witnesses. -/
def mkMsgUpdate (t : String) : Update :=
  { update_id := 1
    message := some
      { text := some t, chat := sampleChat, fromUser := some { id := 7 }
        new_chat_members := none, left_chat_member := none } }

/-- A chat-member update with the given old/new status pair. -/
def mkChatMemberUpdate (oldS newS : ChatMemberStatus) : Update :=
  { update_id := 2
    chat_member := some
      { chat := sampleChat, fromUser := { id := 7 }
        old_chat_member := { status := oldS, user := { id := 8 } }
        new_chat_member := { status := newS, user := { id := 8 } } } }

/-- A message update whose `new_chat_members` array is non-empty. -/
def msgNewMembersUpdate : Update :=
  { update_id := 3
    message := some
      { text := none, chat := sampleChat, fromUser := some { id := 7 }
        new_chat_members := some [{ id := 9 }], left_chat_member := none } }

/-- A message update whose `left_chat_member` field is populated. -/
def msgLeftMemberUpdate : Update :=
  { update_id := 4
    message := some
      { text := none, chat := sampleChat, fromUser := some { id := 7 }
        new_chat_members := none, left_chat_member := some { id := 9 } } }

/-- An always-true filter tagged as compatible with message updates only,
used to exercise the tag behaviour of the combinators. -/
def taggedMessageFilter : FilterFunction :=
  { pred := fun _ => .ok true, compatibleEvents := some [.message] }

/-- An always-true filter tagged as compatible with callback_query
updates only. -/
def taggedCallbackFilter : FilterFunction :=
  { pred := fun _ => .ok true, compatibleEvents := some [.callback_query] }

/-- A handler that emits event 1 and then throws. -/
def throwingHandler : Handler := fun _ => ([1], some "boom")

/-- A handler that emits event 2 and returns normally. -/
def okHandler2 : Handler := fun _ => ([2], none)

/-- A handler that emits event 1 and returns normally. -/
def okHandler1 : Handler := fun _ => ([1], none)

/-- A filter that always throws when evaluated. -/
def throwingFilter : FilterFunction :=
  { pred := fun _ => .error "filter blew up", compatibleEvents := none }

/-- Registry holding the throwing handler registered for messages. -/
def regThrow1 : Registry := [(UpdateKind.message, [⟨throwingHandler, none⟩])]

/-- Registry holding the throwing handler and then a normal handler,
both registered for messages. -/
def regThrow2 : Registry :=
  [(UpdateKind.message, [⟨throwingHandler, none⟩, ⟨okHandler2, none⟩])]

/-- Registry holding two normal handlers registered for messages in
order. -/
def regOrder1 : Registry := [(UpdateKind.message, [⟨okHandler1, none⟩])]

/-- Registry extending `regOrder1` with the second normal handler. -/
def regOrder2 : Registry :=
  [(UpdateKind.message, [⟨okHandler1, none⟩, ⟨okHandler2, none⟩])]

/-- Registry holding a throwing-filter entry and then an unfiltered
normal handler, both for messages. -/
def regFilterThrow1 : Registry :=
  [(UpdateKind.message, [⟨okHandler1, some throwingFilter⟩])]

/-- Registry extending `regFilterThrow1` with a second, unfiltered
handler. -/
def regFilterThrow2 : Registry :=
  [(UpdateKind.message, [⟨okHandler1, some throwingFilter⟩, ⟨okHandler2, none⟩])]

/-- A malformed update populating both `message` and `callback_query`. -/
def doubleUpdate : Update :=
  { update_id := 5
    message := some
      { text := some "hi", chat := sampleChat, fromUser := some { id := 7 }
        new_chat_members := none, left_chat_member := none }
    callback_query := some
      { data := some "btn", message := none, fromUser := { id := 7 } } }

/-- Registry with one handler for messages and one for callback queries. -/
def regDouble : Registry :=
  [(UpdateKind.message, [⟨okHandler1, none⟩]),
   (UpdateKind.callback_query, [⟨okHandler2, none⟩])]

end SampleData

/-- Recognizer for handler-invocation trace items, used to count how many
handlers a dispatch actually invoked. -/
def isInvoked : TraceItem → Bool
  | .invoked _ => true
  | _ => false

theorem mapGet_mapSet_same (m : Registry) (k : UpdateKind) (v : List HandlerEntry) :
    mapGet (mapSet m k v) k = some v := by
  induction m with
  | nil => simp [mapGet, mapSet]
  | cons p rest ih =>
    obtain ⟨k2, v2⟩ := p
    by_cases h : k2 = k <;> simp [mapGet, mapSet, h, ih]

theorem mapGet_mapSet_ne (m : Registry) (k k2 : UpdateKind) (v : List HandlerEntry)
    (h : k2 ≠ k) : mapGet (mapSet m k v) k2 = mapGet m k2 := by
  induction m with
  | nil => simp [mapGet, mapSet, Ne.symm h]
  | cons p rest ih =>
    obtain ⟨k3, v3⟩ := p
    by_cases h3 : k3 = k
    · subst h3
      simp [mapGet, mapSet, Ne.symm h]
    · simp [mapGet, mapSet, h3, ih]

theorem pushEntry_get_same (reg : Registry) (k : UpdateKind) (e : HandlerEntry) :
    mapGet (Bot.pushEntry reg k e) k = some ((mapGet reg k).getD [] ++ [e]) := by
  unfold Bot.pushEntry
  cases h : mapGet reg k with
  | none => simp [h, mapGet_mapSet_same]
  | some l => simp [h, mapGet_mapSet_same]

theorem pushEntry_get_ne (reg : Registry) (k k2 : UpdateKind) (e : HandlerEntry)
    (h : k2 ≠ k) : mapGet (Bot.pushEntry reg k e) k2 = mapGet reg k2 := by
  unfold Bot.pushEntry
  cases hg : mapGet reg k with
  | none => simp [hg, mapGet_mapSet_ne _ _ _ _ h]
  | some l => simp [hg, mapGet_mapSet_ne _ _ _ _ h]

theorem onUpdate_none_eq (reg : Registry) (k : UpdateKind) (h : Handler) :
    Bot.onUpdate reg k h none = .ok (Bot.pushEntry reg k ⟨h, none⟩) := rfl

theorem onUpdate_untagged_eq (reg : Registry) (k : UpdateKind) (h : Handler)
    (f : FilterFunction) (hf : f.compatibleEvents = none) :
    Bot.onUpdate reg k h (some f) = .ok (Bot.pushEntry reg k ⟨h, some f⟩) := by
  unfold Bot.onUpdate
  simp [hf]

theorem runHandlers_append (ctx : Ctx) (u : Update) (k : UpdateKind)
    (es1 es2 : List HandlerEntry) :
    Bot.runHandlers ctx u k (es1 ++ es2) =
      Bot.runHandlers ctx u k es1 ++ Bot.runHandlers ctx u k es2 := by
  simp [Bot.runHandlers]

theorem runEntry_nofilter (ctx : Ctx) (u : Update) (k : UpdateKind) (h : Handler) :
    Bot.runEntry ctx u k ⟨h, none⟩ = Bot.runHandler ctx k h := rfl

theorem processUpdate_single (reg : Registry) (u : Update) (k : UpdateKind)
    (hk : Bot.updateTypes u = [k]) :
    Bot.processUpdate reg u =
      Bot.runHandlers (Bot.createContext u) u k ((mapGet reg k).getD []) := by
  unfold Bot.processUpdate
  rw [hk]
  simp

theorem processUpdate_empty (u : Update) :
    Bot.processUpdate emptyRegistry u = [] := by
  have h : ∀ k, mapGet emptyRegistry k = none := fun _ => rfl
  simp [Bot.processUpdate, Bot.runHandlers, h]

theorem appended_handler_trace (reg reg2 : Registry) (k : UpdateKind) (h : Handler)
    (u : Update) (hr : Bot.onUpdate reg k h none = .ok reg2)
    (hk : Bot.updateTypes u = [k]) :
    Bot.processUpdate reg2 u =
      Bot.processUpdate reg u ++ Bot.runHandler (Bot.createContext u) k h := by
  rw [onUpdate_none_eq] at hr
  have hreg : reg2 = Bot.pushEntry reg k ⟨h, none⟩ := (Except.ok.inj hr).symm
  subst hreg
  rw [processUpdate_single _ _ _ hk, processUpdate_single _ _ _ hk,
    pushEntry_get_same]
  simp [runHandlers_append, Bot.runHandlers, runEntry_nofilter]

theorem countP_isInvoked_map_ev (evs : List Nat) :
    (evs.map TraceItem.ev).countP isInvoked = 0 := by
  induction evs with
  | nil => rfl
  | cons e rest ih => simp [List.countP_cons, isInvoked, ih]

theorem countP_isInvoked_runHandler (ctx : Ctx) (k : UpdateKind) (h : Handler) :
    (Bot.runHandler ctx k h).countP isInvoked = 1 := by
  unfold Bot.runHandler
  cases hh : h ctx with
  | mk evs err =>
    cases err <;>
      simp [List.countP_cons, List.countP_append, countP_isInvoked_map_ev, isInvoked]

/-- Claim C1: a handler that throws is caught individually: the error is
logged with the offending kind, the next registered handler for the same
kind still runs exactly once (the trace contains exactly two handler
invocations), and the dispatch returns its full trace (the promise
resolves). -/
theorem c1_handler_exception_isolation
    (u : Update) (k : UpdateKind) (evs1 : List Nat) (err : String)
    (h2 : Handler) (reg1 reg2 : Registry)
    (hr1 : Bot.onUpdate emptyRegistry k (fun _ => (evs1, some err)) none = .ok reg1)
    (hr2 : Bot.onUpdate reg1 k h2 none = .ok reg2)
    (hk : Bot.updateTypes u = [k]) :
    Bot.processUpdate reg2 u =
      (TraceItem.invoked (Bot.createContext u) :: evs1.map TraceItem.ev
          ++ [TraceItem.log k err])
        ++ Bot.runHandler (Bot.createContext u) k h2 ∧
      (Bot.processUpdate reg2 u).countP isInvoked = 2 := by
  have t2 := appended_handler_trace reg1 reg2 k h2 u hr2 hk
  have t1 := appended_handler_trace emptyRegistry reg1 k _ u hr1 hk
  rw [processUpdate_empty] at t1
  have hrh : Bot.runHandler (Bot.createContext u) k (fun _ => (evs1, some err)) =
      TraceItem.invoked (Bot.createContext u) :: evs1.map TraceItem.ev
        ++ [TraceItem.log k err] := rfl
  constructor
  · rw [t2, t1, hrh]
    simp
  · rw [t2, t1]
    simp [List.countP_append, countP_isInvoked_runHandler]

/-- Claim C1, witness: concrete dispatch with a throwing first handler and
a second handler that emits event 2. -/
theorem c1_witness :
    Bot.processUpdate regThrow2 (mkMsgUpdate "hi") =
      (TraceItem.invoked (Bot.createContext (mkMsgUpdate "hi"))
          :: [1].map TraceItem.ev ++ [TraceItem.log .message "boom"])
        ++ Bot.runHandler (Bot.createContext (mkMsgUpdate "hi")) .message okHandler2 ∧
      (Bot.processUpdate regThrow2 (mkMsgUpdate "hi")).countP isInvoked = 2 :=
  c1_handler_exception_isolation (mkMsgUpdate "hi") .message [1] "boom"
    okHandler2 regThrow1 regThrow2 rfl rfl rfl

/-- Claim C2: handlers run in registration order and each one runs to
completion before the next starts: appending a registration appends that
handler's complete trace after the existing dispatch trace, and for two
handlers registered in order the dispatch trace is the first handler's
complete trace followed by the second's. -/
theorem c2_registration_order_preserved :
    (∀ (reg reg2 : Registry) (k : UpdateKind) (h : Handler) (u : Update),
        Bot.onUpdate reg k h none = .ok reg2 → Bot.updateTypes u = [k] →
        Bot.processUpdate reg2 u =
          Bot.processUpdate reg u ++ Bot.runHandler (Bot.createContext u) k h) ∧
      (∀ (k : UpdateKind) (h1 h2 : Handler) (u : Update) (reg1 reg2 : Registry),
        Bot.onUpdate emptyRegistry k h1 none = .ok reg1 →
        Bot.onUpdate reg1 k h2 none = .ok reg2 → Bot.updateTypes u = [k] →
        Bot.processUpdate reg2 u =
          Bot.runHandler (Bot.createContext u) k h1
            ++ Bot.runHandler (Bot.createContext u) k h2) := by
  refine ⟨fun reg reg2 k h u hr hk => appended_handler_trace reg reg2 k h u hr hk,
    fun k h1 h2 u reg1 reg2 hr1 hr2 hk => ?_⟩
  rw [appended_handler_trace reg1 reg2 k h2 u hr2 hk,
    appended_handler_trace emptyRegistry reg1 k h1 u hr1 hk, processUpdate_empty]
  simp

/-- Claim C2, witness: concrete dispatch with two normal handlers
registered in order. -/
theorem c2_witness :
    Bot.processUpdate regOrder2 (mkMsgUpdate "hi") =
      Bot.runHandler (Bot.createContext (mkMsgUpdate "hi")) .message okHandler1
        ++ Bot.runHandler (Bot.createContext (mkMsgUpdate "hi")) .message okHandler2 :=
  c2_registration_order_preserved.2 .message okHandler1 okHandler2
    (mkMsgUpdate "hi") regOrder1 regOrder2 rfl rfl rfl

/-- Claim C10: a filter that throws during evaluation is caught by the
same per-handler try/catch as handler errors: the error is logged with
the kind, the guarded handler is skipped (only one invocation appears in
the trace), the next handler still runs, and the dispatch returns its
full trace. -/
theorem c10_filter_exception_isolated
    (u : Update) (k : UpdateKind) (fErr : String) (h1 h2 : Handler)
    (reg1 reg2 : Registry)
    (hr1 : Bot.onUpdate emptyRegistry k h1
        (some { pred := fun _ => Except.error fErr, compatibleEvents := none })
        = .ok reg1)
    (hr2 : Bot.onUpdate reg1 k h2 none = .ok reg2)
    (hk : Bot.updateTypes u = [k]) :
    Bot.processUpdate reg2 u =
      TraceItem.log k fErr :: Bot.runHandler (Bot.createContext u) k h2 ∧
      (Bot.processUpdate reg2 u).countP isInvoked = 1 := by
  have t2 := appended_handler_trace reg1 reg2 k h2 u hr2 hk
  rw [onUpdate_untagged_eq _ _ _ _ rfl] at hr1
  have hreg1 : reg1 = Bot.pushEntry emptyRegistry k
      ⟨h1, some { pred := fun _ => Except.error fErr, compatibleEvents := none }⟩ :=
    (Except.ok.inj hr1).symm
  have t1 : Bot.processUpdate reg1 u = [TraceItem.log k fErr] := by
    subst hreg1
    rw [processUpdate_single _ _ _ hk, pushEntry_get_same]
    simp [Bot.runHandlers, Bot.runEntry, emptyRegistry, mapGet]
  constructor
  · rw [t2, t1]
    rfl
  · rw [t2, t1]
    simp [List.countP_append, List.countP_cons, countP_isInvoked_runHandler, isInvoked]

/-- Claim C10, witness: concrete dispatch where the first entry's filter
throws and the second, unfiltered handler still runs. -/
theorem c10_witness :
    Bot.processUpdate regFilterThrow2 (mkMsgUpdate "hi") =
      TraceItem.log .message "filter blew up"
        :: Bot.runHandler (Bot.createContext (mkMsgUpdate "hi")) .message okHandler2 ∧
      (Bot.processUpdate regFilterThrow2 (mkMsgUpdate "hi")).countP isInvoked = 1 :=
  c10_filter_exception_isolated (mkMsgUpdate "hi") .message "filter blew up"
    okHandler1 okHandler2 regFilterThrow1 regFilterThrow2 rfl rfl rfl

/-- Claim C9: the empty AND combinator accepts every update and the empty
OR combinator rejects every update (vacuous `.every` / `.some` on the
empty array). -/
theorem c9_vacuous_combinators (u : Update) :
    (filters.and []).pred u = Except.ok true ∧
      (filters.or []).pred u = Except.ok false :=
  ⟨rfl, rfl⟩

/-- Claim C3, counterexample: on a chat-member update with old status
"left" and new status "member", the `newChatMembers()` filter returns
false, not true as claimed — it inspects the `new_chat_members` field of
a message, not chat-member status pairs. -/
theorem c3_counterexample :
    (filters.newChatMembers).pred (mkChatMemberUpdate .left .member) =
      Except.ok false := rfl

/-- Claim C3, amended: the old/new status pair of a chat-member update is
classified by `memberStatusChange`, not by `newChatMembers` /
`leftChatMember` (which test the message fields `new_chat_members` /
`left_chat_member`, and are false on chat-member updates); there is no
`kickedChatMember` factory.  For old "left" and new "member",
`memberStatusChange(join)` is true and `memberStatusChange(leave)` false;
for old "member" and new "kicked", `memberStatusChange(leave)` is true
and `memberStatusChange(join)` false. -/
theorem c3_membership_classification :
    (filters.memberStatusChange .join).pred (mkChatMemberUpdate .left .member) =
        Except.ok true ∧
      (filters.memberStatusChange .leave).pred (mkChatMemberUpdate .left .member) =
        Except.ok false ∧
      (filters.memberStatusChange .leave).pred (mkChatMemberUpdate .member .kicked) =
        Except.ok true ∧
      (filters.memberStatusChange .join).pred (mkChatMemberUpdate .member .kicked) =
        Except.ok false ∧
      (filters.newChatMembers).pred (mkChatMemberUpdate .member .kicked) =
        Except.ok false ∧
      (filters.leftChatMember).pred (mkChatMemberUpdate .left .member) =
        Except.ok false ∧
      (filters.newChatMembers).pred msgNewMembersUpdate = Except.ok true ∧
      (filters.leftChatMember).pred msgLeftMemberUpdate = Except.ok true :=
  ⟨rfl, rfl, rfl, rfl, rfl, rfl, rfl, rfl⟩

/-- Claim C4, counterexample: `and` applied to two filters tagged with
compatibleEvents `[message]` and `[callback_query]` yields a filter whose
`compatibleEvents` is not set at all — there is no list, let alone the
union of the operands' lists. -/
theorem c4_counterexample :
    ¬ ∃ l, (filters.and [taggedMessageFilter, taggedCallbackFilter]).compatibleEvents
        = some l := by
  rintro ⟨l, h⟩
  exact Option.noConfusion h

/-- Claim C4, amended: for every list of operand filters, `and` and `or`
return a filter whose `compatibleEvents` property is left unset, so the
combined filter carries no compatibility tag and is accepted for every
update kind at registration. -/
theorem c4_combinators_drop_tags (fs : List FilterFunction) :
    (filters.and fs).compatibleEvents = none ∧
      (filters.or fs).compatibleEvents = none :=
  ⟨rfl, rfl⟩

/-- Claim C6: `onUpdate` throws at registration time exactly when the
filter's `compatibleEvents` is set and does not include the kind (the
throw precedes any mutation, so the registry is untouched); otherwise it
succeeds and appends the (handler, filter) pair to the kind's list —
creating the list when the kind had none, reading the existing list
otherwise — and leaves every other kind's list unchanged. -/
theorem c6_registration_check :
    (∀ (reg : Registry) (k : UpdateKind) (h : Handler) (f : FilterFunction)
        (evs : List UpdateKind), f.compatibleEvents = some evs → k ∉ evs →
        Bot.onUpdate reg k h (some f) =
          .error "Filter is not compatible with event") ∧
      (∀ (reg : Registry) (k : UpdateKind) (h : Handler)
          (fOpt : Option FilterFunction),
        (∀ f evs, fOpt = some f → f.compatibleEvents = some evs → k ∈ evs) →
        ∃ reg2, Bot.onUpdate reg k h fOpt = .ok reg2 ∧
          mapGet reg2 k = some ((mapGet reg k).getD [] ++ [⟨h, fOpt⟩]) ∧
          ∀ k2, k2 ≠ k → mapGet reg2 k2 = mapGet reg k2) := by
  constructor
  · intro reg k h f evs hce hne
    unfold Bot.onUpdate
    simp [hce, hne]
  · intro reg k h fOpt hcompat
    cases fOpt with
    | none =>
      exact ⟨Bot.pushEntry reg k ⟨h, none⟩, rfl, pushEntry_get_same reg k _,
        fun k2 hk2 => pushEntry_get_ne reg k k2 _ hk2⟩
    | some f =>
      cases hce : f.compatibleEvents with
      | none =>
        exact ⟨Bot.pushEntry reg k ⟨h, some f⟩, onUpdate_untagged_eq reg k h f hce,
          pushEntry_get_same reg k _, fun k2 hk2 => pushEntry_get_ne reg k k2 _ hk2⟩
      | some evs =>
        have hmem : k ∈ evs := hcompat f evs rfl hce
        refine ⟨Bot.pushEntry reg k ⟨h, some f⟩, ?_, pushEntry_get_same reg k _,
          fun k2 hk2 => pushEntry_get_ne reg k k2 _ hk2⟩
        unfold Bot.onUpdate
        simp [hce, hmem]

/-- Claim C6, witness: the message-only filter is rejected for kind
callback_query and accepted for kind message, where it lands appended in
the message list while other kinds stay empty. -/
theorem c6_witness :
    Bot.onUpdate emptyRegistry .callback_query okHandler1 (some taggedMessageFilter)
        = .error "Filter is not compatible with event" ∧
      ∃ reg2, Bot.onUpdate emptyRegistry .message okHandler1
            (some taggedMessageFilter) = .ok reg2 ∧
          mapGet reg2 .message =
            some ((mapGet emptyRegistry UpdateKind.message).getD []
              ++ [⟨okHandler1, some taggedMessageFilter⟩]) ∧
          ∀ k2, k2 ≠ UpdateKind.message → mapGet reg2 k2 = mapGet emptyRegistry k2 :=
  ⟨c6_registration_check.1 emptyRegistry .callback_query okHandler1
      taggedMessageFilter [.message] rfl (by decide),
    c6_registration_check.2 emptyRegistry .message okHandler1
      (some taggedMessageFilter)
      (by
        rintro f evs hf hce
        cases hf
        cases hce
        exact List.mem_singleton.mpr rfl)⟩

/-- Claim C5: no built-in filter factory sets `compatibleEvents` on the
value it returns, and registration of a filter without `compatibleEvents`
always succeeds for every kind — so the registration-time compatibility
check cannot fire for a filter produced by a built-in factory. -/
theorem c5_builtin_filters_have_no_tag :
    (∀ s, (filters.text s).compatibleEvents = none) ∧
      (∀ r, (filters.textMatches r).compatibleEvents = none) ∧
      (∀ s, (filters.command s).compatibleEvents = none) ∧
      (∀ s, (filters.callbackData s).compatibleEvents = none) ∧
      (∀ r, (filters.callbackDataMatches r).compatibleEvents = none) ∧
      (∀ t, (filters.chatType t).compatibleEvents = none) ∧
      (filters.newChatMembers.compatibleEvents = none) ∧
      (filters.leftChatMember.compatibleEvents = none) ∧
      (∀ sc, (filters.memberStatusChange sc).compatibleEvents = none) ∧
      (∀ fn, (filters.custom fn).compatibleEvents = none) ∧
      (∀ fs, (filters.and fs).compatibleEvents = none) ∧
      (∀ fs, (filters.or fs).compatibleEvents = none) ∧
      (∀ f, (filters.not f).compatibleEvents = none) ∧
      (∀ i, (filters.chatId i).compatibleEvents = none) ∧
      (∀ i, (filters.userId i).compatibleEvents = none) ∧
      (∀ (reg : Registry) (k : UpdateKind) (h : Handler) (f : FilterFunction),
        f.compatibleEvents = none →
        Bot.onUpdate reg k h (some f) =
          .ok (Bot.pushEntry reg k ⟨h, some f⟩)) :=
  ⟨fun _ => rfl, fun _ => rfl, fun _ => rfl, fun _ => rfl, fun _ => rfl,
    fun _ => rfl, rfl, rfl, fun _ => rfl, fun _ => rfl, fun _ => rfl,
    fun _ => rfl, fun _ => rfl, fun _ => rfl, fun _ => rfl,
    fun reg k h f hf => onUpdate_untagged_eq reg k h f hf⟩

/-- Claim C5, witness: registering the built-in `newChatMembers` filter
for the chat_member kind — which it can never match — still succeeds,
because the filter carries no `compatibleEvents`. -/
theorem c5_witness :
    Bot.onUpdate emptyRegistry .chat_member okHandler1 (some filters.newChatMembers)
      = .ok (Bot.pushEntry emptyRegistry .chat_member
          ⟨okHandler1, some filters.newChatMembers⟩) :=
  c5_builtin_filters_have_no_tag.2.2.2.2.2.2.2.2.2.2.2.2.2.2.2
    emptyRegistry .chat_member okHandler1 filters.newChatMembers rfl

theorem invoked_mem_runHandler (ctx : Ctx) (k : UpdateKind) (h : Handler) (c : Ctx)
    (hm : TraceItem.invoked c ∈ Bot.runHandler ctx k h) : c = ctx := by
  unfold Bot.runHandler at hm
  cases hh : h ctx with
  | mk evs err =>
    rw [hh] at hm
    cases err <;> simp_all

theorem invoked_mem_runEntry (ctx : Ctx) (u : Update) (k : UpdateKind)
    (e : HandlerEntry) (c : Ctx)
    (hm : TraceItem.invoked c ∈ Bot.runEntry ctx u k e) : c = ctx := by
  unfold Bot.runEntry at hm
  split at hm
  · split at hm
    · simp at hm
    · simp at hm
    · exact invoked_mem_runHandler ctx k e.handler c hm
  · exact invoked_mem_runHandler ctx k e.handler c hm

theorem invoked_mem_runHandlers (ctx : Ctx) (u : Update) (k : UpdateKind)
    (es : List HandlerEntry) (c : Ctx)
    (hm : TraceItem.invoked c ∈ Bot.runHandlers ctx u k es) : c = ctx := by
  unfold Bot.runHandlers at hm
  obtain ⟨l, hl, hcl⟩ := List.mem_flatten.mp hm
  obtain ⟨e, _, rfl⟩ := List.mem_map.mp hl
  exact invoked_mem_runEntry ctx u k e c hcl

theorem mem_if_singleton {α : Type} (b : Bool) (x a : α) :
    (a ∈ if b then [x] else []) ↔ (b = true ∧ a = x) := by
  cases b <;> simp

/-- Claim C8: every handler invocation of one `processUpdate` call
receives the one context built by `createContext` for that update; the
context class is selected by priority over the populated field (message,
then chat_member, then callback_query, then inline_query, then
chosen_inline_result, otherwise generic); the kinds iterated are exactly
the populated non-identifier fields — all of them, not just the first —
as the final concrete dispatch of a double-populated update shows. -/
theorem c8_single_context_all_kinds :
    (∀ (reg : Registry) (u : Update) (c : Ctx),
        TraceItem.invoked c ∈ Bot.processUpdate reg u → c = Bot.createContext u) ∧
      (∀ u : Update,
        (u.message.isSome → Bot.createContext u = Ctx.messageCtx u) ∧
          (u.message = none → u.chat_member.isSome →
            Bot.createContext u = Ctx.chatMemberCtx u) ∧
          (u.message = none → u.chat_member = none → u.callback_query.isSome →
            Bot.createContext u = Ctx.callbackCtx u) ∧
          (u.message = none → u.chat_member = none → u.callback_query = none →
            u.inline_query.isSome → Bot.createContext u = Ctx.inlineQueryCtx u) ∧
          (u.message = none → u.chat_member = none → u.callback_query = none →
            u.inline_query = none → u.chosen_inline_result.isSome →
            Bot.createContext u = Ctx.chosenInlineResultCtx u) ∧
          (u.message = none → u.chat_member = none → u.callback_query = none →
            u.inline_query = none → u.chosen_inline_result = none →
            Bot.createContext u = Ctx.generic u)) ∧
      (∀ (u : Update) (k : UpdateKind),
        k ∈ Bot.updateTypes u ↔ kindPopulated u k = true) ∧
      Bot.processUpdate regDouble doubleUpdate =
        [TraceItem.invoked (Ctx.messageCtx doubleUpdate), TraceItem.ev 1,
          TraceItem.invoked (Ctx.messageCtx doubleUpdate), TraceItem.ev 2] := by
  refine ⟨?_, ?_, ?_, rfl⟩
  · intro reg u c hm
    unfold Bot.processUpdate at hm
    obtain ⟨l, hl, hcl⟩ := List.mem_flatten.mp hm
    obtain ⟨k, _, rfl⟩ := List.mem_map.mp hl
    exact invoked_mem_runHandlers (Bot.createContext u) u k _ c hcl
  · intro u
    refine ⟨fun h1 => ?_, fun h1 h2 => ?_, fun h1 h2 h3 => ?_,
      fun h1 h2 h3 h4 => ?_, fun h1 h2 h3 h4 h5 => ?_, fun h1 h2 h3 h4 h5 => ?_⟩ <;>
      simp [Bot.createContext, *]
  · intro u k
    simp only [Bot.updateTypes, List.mem_append, mem_if_singleton]
    cases k <;> simp [kindPopulated]

/-- Claim C8, witness: the double-populated update is dispatched with the
message-priority context shared by both invocations, and its
callback_query kind is among the iterated kinds. -/
theorem c8_witness :
    Ctx.messageCtx doubleUpdate = Bot.createContext doubleUpdate ∧
      Bot.createContext doubleUpdate = Ctx.messageCtx doubleUpdate ∧
      UpdateKind.callback_query ∈ Bot.updateTypes doubleUpdate :=
  ⟨(c8_single_context_all_kinds.1 regDouble doubleUpdate
      (Ctx.messageCtx doubleUpdate) (by decide)).symm,
    (c8_single_context_all_kinds.2.1 doubleUpdate).1 rfl,
    (c8_single_context_all_kinds.2.2.1 doubleUpdate UpdateKind.callback_query).mpr rfl⟩

end Workergram
